import Mathlib

/-!
# projekt1: two button-controlled LED blinker threads

A shallow embedding of `src/projekt1/src/main.c` (with the declarations of
`src/projekt1/inc/semaphore.h`).

* `thread_args` is the C struct of the same name.
* One pass through the body of the `while (1)` loop of `run_thread` is
  `loop_iteration`; it is the sequence of the two top-level `if` statements of
  the body, `edge_check` (lines 49-61) and `drive_leds` (lines 63-74).
* Every library call of the body, and the store to `blink_enabled`, is recorded
  as an `Action`, in program order.  The loop never terminates, so `run_thread`
  executes as many iterations as it is given poll outcomes.
* The library `gpiod_utils` is not part of the sources.  The outcome of a call of
  `gpiod_line_event_detected` is therefore an input of an iteration
  (`edge_result`); the output lines are modelled by replaying the
  `gpiod_line_set_value` calls of a trace (`line_values`).
-/

namespace Projekt1

/-! ## Constants -/

/-- Line 15 of main.c: `#define SEMAPHORE_ID_PRINT 0`. -/
def SEMAPHORE_ID_PRINT : Nat := 0

/-- Line 24 of semaphore.h: `#define SEM_ID_MIN 0`. -/
def SEM_ID_MIN : Nat := 0

/-- Line 25 of semaphore.h: `#define SEM_ID_MAX 31`. -/
def SEM_ID_MAX : Nat := 31

/-! ## Collaborator types (library `gpiod_utils`) -/

/-- Direction of a line, the second argument of `gpiod_line_new`. -/
inductive gpiod_line_direction where
  | GPIOD_LINE_DIRECTION_IN
  | GPIOD_LINE_DIRECTION_OUT
  deriving DecidableEq, Repr

/-- Edge kinds, the second argument of `gpiod_line_event_detected`. -/
inductive gpiod_line_edge where
  | GPIOD_LINE_EDGE_RISING
  | GPIOD_LINE_EDGE_FALLING
  | GPIOD_LINE_EDGE_BOTH
  deriving DecidableEq, Repr

/-- Modelled from the spec: the line handle `struct gpiod_line` of the missing
library `gpiod_utils` ("opaque handle to a hardware pin configured as input or
output").  A handle is identified by its pin offset and direction. -/
structure gpiod_line where
  offset : Nat
  direction : gpiod_line_direction
  deriving DecidableEq, Repr

/-- Modelled from the spec: `create_line(pin_offset, direction) -> LineHandle`
of the missing library `gpiod_utils`. -/
def gpiod_line_new (offset : Nat) (direction : gpiod_line_direction) : gpiod_line :=
  { offset := offset, direction := direction }

/-- Modelled from the spec: `line_offset(line) -> int` of the missing library
`gpiod_utils`. -/
def gpiod_line_offset (line : gpiod_line) : Nat := line.offset

/-! ## Data model -/

/-- The struct `thread_args` (main.c, lines 25-32).  `blink_speed_ms` is a
`uint16_t` and `previous_value` a `uint8_t`; the program performs no arithmetic
on either. -/
structure thread_args where
  led_a : gpiod_line
  led_b : gpiod_line
  button : gpiod_line
  blink_speed_ms : Nat
  blink_enabled : Bool
  previous_value : Nat
  deriving DecidableEq, Repr

/-- What one call `gpiod_line_event_detected(line, edge, &previous_value)`
yields: the returned flag and the sample it leaves in `previous_value`. -/
structure edge_result where
  detected : Bool
  stored : Nat
  deriving DecidableEq, Repr

/-- The observable steps of `run_thread`, one per library call, plus the store
to the field `blink_enabled` (line 50). -/
inductive Action where
  | gpiod_line_event_detected (line : gpiod_line) (edge : gpiod_line_edge)
  | store_blink_enabled (value : Bool)
  | semaphore_reserve (sem_id : Nat)
  | semaphore_release (sem_id : Nat)
  | printf (format : String) (first second : Nat)
  | delay_ms (ms : Nat)
  | gpiod_line_set_value (line : gpiod_line) (value : Nat)
  deriving DecidableEq, Repr

/-- Format string of line 53. -/
def enabled_format : String := "Leds connected to pin %hu and %hu now enabled!\n"

/-- Format string of line 56. -/
def disabled_format : String := "Leds connected to pin %hu and %hu now disabled!\n"

/-! ## The worker loop -/

/-- Lines 49-61 of `run_thread`: poll the button; on a detected edge flip
`blink_enabled`, then reserve the print semaphore, print, wait 10 ms and
release.  Returns the updated struct and the actions performed, in order. -/
def edge_check (self : thread_args) (ev : edge_result) : thread_args × List Action :=
  let polled : thread_args := { self with previous_value := ev.stored }
  let poll := Action.gpiod_line_event_detected self.button
    gpiod_line_edge.GPIOD_LINE_EDGE_RISING
  if ev.detected then
    let flipped : thread_args := { polled with blink_enabled := !polled.blink_enabled }
    let print :=
      if flipped.blink_enabled = true then
        Action.printf enabled_format
          (gpiod_line_offset flipped.led_a) (gpiod_line_offset flipped.led_b)
      else
        Action.printf disabled_format
          (gpiod_line_offset flipped.led_a) (gpiod_line_offset flipped.led_b)
    (flipped,
      [poll,
       Action.store_blink_enabled flipped.blink_enabled,
       Action.semaphore_reserve SEMAPHORE_ID_PRINT,
       print,
       Action.delay_ms 10,
       Action.semaphore_release SEMAPHORE_ID_PRINT])
  else
    (polled, [poll])

/-- Lines 63-74 of `run_thread`: the alternating blink when `blink_enabled`
holds, both lines low otherwise. -/
def drive_leds (self : thread_args) : List Action :=
  if self.blink_enabled = true then
    [Action.gpiod_line_set_value self.led_a 1,
     Action.gpiod_line_set_value self.led_b 0,
     Action.delay_ms self.blink_speed_ms,
     Action.gpiod_line_set_value self.led_a 0,
     Action.gpiod_line_set_value self.led_b 1,
     Action.delay_ms self.blink_speed_ms]
  else
    [Action.gpiod_line_set_value self.led_a 0,
     Action.gpiod_line_set_value self.led_b 0]

/-- One pass through the body of the `while (1)` loop (lines 49-74). -/
def loop_iteration (self : thread_args) (ev : edge_result) : thread_args × List Action :=
  let checked := edge_check self ev
  (checked.1, checked.2 ++ drive_leds checked.1)

/-- The loop of `run_thread` (lines 47-75), run for one iteration per given
poll outcome. -/
def run_thread : thread_args → List edge_result → thread_args × List Action
  | self, [] => (self, [])
  | self, ev :: rest =>
    let first := loop_iteration self ev
    let later := run_thread first.1 rest
    (later.1, first.2 ++ later.2)

/-! ## Output lines -/

/-- Modelled from the spec: `set_value(line, value)` of the missing library
`gpiod_utils`; the line named in the call takes the value, every other line
keeps its own.  All other actions leave the lines alone. -/
def apply_action (values : gpiod_line → Nat) : Action → gpiod_line → Nat
  | Action.gpiod_line_set_value line value => fun l => if l = line then value else values l
  | _ => values

/-- The line values after a whole trace, starting from `values`. -/
def line_values (values : gpiod_line → Nat) (trace : List Action) : gpiod_line → Nat :=
  trace.foldl apply_action values

/-- Each action of a trace together with the values of the lines `a` and `b`
right after it. -/
def observe (a b : gpiod_line) : (gpiod_line → Nat) → List Action → List (Action × Nat × Nat)
  | _, [] => []
  | values, act :: rest =>
    let next := apply_action values act
    (act, next a, next b) :: observe a b next rest

/-- Selects the `gpiod_line_set_value` calls. -/
def is_set_value : Action → Bool
  | Action.gpiod_line_set_value _ _ => true
  | _ => false

/-- Selects the `printf` calls. -/
def is_printf : Action → Bool
  | Action.printf _ _ _ => true
  | _ => false

/-- The waits of a trace: the arguments of its `delay_ms` calls, in order. -/
def delays : List Action → List Nat
  | [] => []
  | Action.delay_ms ms :: rest => ms :: delays rest
  | _ :: rest => delays rest

/-- Selects the `delay_ms` calls. -/
def is_delay : Action → Bool
  | Action.delay_ms _ => true
  | _ => false

/-- Selects the stores to `blink_enabled`. -/
def is_store : Action → Bool
  | Action.store_blink_enabled _ => true
  | _ => false

/-- Selects the `semaphore_reserve` calls. -/
def is_reserve : Action → Bool
  | Action.semaphore_reserve _ => true
  | _ => false

/-- Selects the `semaphore_release` calls. -/
def is_release : Action → Bool
  | Action.semaphore_release _ => true
  | _ => false

/-- The lines `a` and `b` are not both high (value 1) right after any
`gpiod_line_set_value` call of the trace. -/
def never_both_high (a b : gpiod_line) (values : gpiod_line → Nat) (trace : List Action) :
    Prop :=
  ∀ snap ∈ observe a b values trace, is_set_value snap.1 = true →
    ¬ (snap.2.1 = 1 ∧ snap.2.2 = 1)

/-- Both observed lines are high (value 1) in a snapshot. -/
def both_high (snap : Action × Nat × Nat) : Prop :=
  snap.2.1 = 1 ∧ snap.2.2 = 1

/-- Relates a snapshot to the next one of a trace: if the first is a call that
sets the line `a` to 1, the next is the call that sets the line `b` to 0 and
leaves the pair (1, 0). -/
def cleared_next (a b : gpiod_line) (s1 s2 : Action × Nat × Nat) : Prop :=
  s1.1 = Action.gpiod_line_set_value a 1 → s2 = (Action.gpiod_line_set_value b 0, 1, 0)

/-- The snapshots at the waits of a trace: each `delay_ms` call with the values
of the lines `a` and `b` during it. -/
def waits (a b : gpiod_line) (values : gpiod_line → Nat) (trace : List Action) :
    List (Action × Nat × Nat) :=
  (observe a b values trace).filter fun snap => is_delay snap.1

/-- Walks a trace and reports, for every action selected by `p`, whether this
thread holds the semaphore at that moment: `held` becomes true at a
`semaphore_reserve` and false at a `semaphore_release`. -/
def held_at (p : Action → Bool) : Bool → List Action → List Bool
  | _, [] => []
  | _, Action.semaphore_reserve _ :: rest => held_at p true rest
  | _, Action.semaphore_release _ :: rest => held_at p false rest
  | held, act :: rest => if p act then held :: held_at p held rest else held_at p held rest

/-- The actions strictly between the first `semaphore_reserve` of a trace and
the first `semaphore_release` after it. -/
def reserved_section (trace : List Action) : List Action :=
  ((trace.dropWhile fun act => !is_reserve act).drop 1).takeWhile fun act => !is_release act

/-- Lines 16-25 of semaphore.h: "Valid semaphore ID:s are in the range 0 - 31",
that is from `SEM_ID_MIN` to `SEM_ID_MAX`. -/
def valid_sem_id (sem_id : Nat) : Bool :=
  decide (SEM_ID_MIN ≤ sem_id ∧ sem_id ≤ SEM_ID_MAX)

/-! ## Edge detection on samples -/

/-- Modelled from the spec: `gpiod_line_event_detected` of the missing library
`gpiod_utils`, called with `GPIOD_LINE_EDGE_RISING` as `run_thread` does.  It
reports an edge exactly when the previous sample is low (0) and the current
sample `level` is high (not 0), and on every call it stores the current sample
in `previous_value`. -/
def gpiod_line_event_detected_rising (level previous_value : Nat) : edge_result :=
  { detected := decide (previous_value = 0 ∧ level ≠ 0), stored := level }

/-- The loop of `run_thread` fed with the level of the button line at each
poll: every iteration calls the edge detection with the stored sample. -/
def run_thread_sampled : thread_args → List Nat → thread_args × List Action
  | self, [] => (self, [])
  | self, level :: rest =>
    let first := loop_iteration self
      (gpiod_line_event_detected_rising level self.previous_value)
    let later := run_thread_sampled first.1 rest
    (later.1, first.2 ++ later.2)

/-! ## Two workers and the semaphore registry -/

/-- Modelled from the spec: `semaphore_reserve`, declared in semaphore.h and
implemented outside the sources.  The registry maps an ID to whether that
semaphore is held.  An invalid ID fails (returns false) and changes nothing;
a valid ID whose semaphore is held keeps the caller blocked (`none`); otherwise
the semaphore is marked held and the call returns true. -/
def semaphore_reserve (registry : Nat → Bool) (sem_id : Nat) :
    Option (Bool × (Nat → Bool)) :=
  if valid_sem_id sem_id = false then some (false, registry)
  else if registry sem_id = true then none
  else some (true, fun i => if i = sem_id then true else registry i)

/-- Modelled from the spec: `semaphore_release`, declared in semaphore.h and
implemented outside the sources.  An invalid ID fails (returns false) and
changes nothing; otherwise the semaphore is marked free, whoever holds it, and
the call returns true. -/
def semaphore_release (registry : Nat → Bool) (sem_id : Nat) : Bool × (Nat → Bool) :=
  if valid_sem_id sem_id = false then (false, registry)
  else (true, fun i => if i = sem_id then false else registry i)

/-- A thread running `run_thread`: its struct, the actions of its current
iteration it has not performed yet, and whether it is inside the status-print
section, that is past a `semaphore_reserve(SEMAPHORE_ID_PRINT)` and not yet past
the `semaphore_release(SEMAPHORE_ID_PRINT)` that follows. -/
structure Worker where
  self : thread_args
  pending : List Action
  in_section : Bool

/-- One step of a worker.  With nothing pending it enters the next iteration of
the loop, `ev` being the outcome of the poll.  Otherwise it performs its next
pending action; a `semaphore_reserve` that blocks leaves the worker where it
is.  `run_thread` ignores the results of both semaphore calls. -/
def worker_step (w : Worker) (registry : Nat → Bool) (ev : edge_result) :
    Worker × (Nat → Bool) :=
  match w.pending with
  | [] =>
    let iteration := loop_iteration w.self ev
    ({ self := iteration.1, pending := iteration.2, in_section := w.in_section }, registry)
  | Action.semaphore_reserve sem_id :: rest =>
    match semaphore_reserve registry sem_id with
    | none => (w, registry)
    | some result =>
      ({ w with pending := rest,
                in_section := if sem_id = SEMAPHORE_ID_PRINT then true else w.in_section },
       result.2)
  | Action.semaphore_release sem_id :: rest =>
    ({ w with pending := rest,
              in_section := if sem_id = SEMAPHORE_ID_PRINT then false else w.in_section },
     (semaphore_release registry sem_id).2)
  | _ :: rest => ({ w with pending := rest }, registry)

/-- The two threads created by `main` and the semaphore registry they share. -/
structure Threads where
  first : Worker
  second : Worker
  registry : Nat → Bool

/-- One step of the system: the scheduler picks the first thread (`true`) or
the second (`false`), and that thread takes one step. -/
def system_step (s : Threads) (choice : Bool × edge_result) : Threads :=
  if choice.1 = true then
    let moved := worker_step s.first s.registry choice.2
    { first := moved.1, second := s.second, registry := moved.2 }
  else
    let moved := worker_step s.second s.registry choice.2
    { first := s.first, second := moved.1, registry := moved.2 }

/-- The system after a schedule, an arbitrary interleaving of the two threads. -/
def run_system (s : Threads) (schedule : List (Bool × edge_result)) : Threads :=
  schedule.foldl system_step s

/-- Lines 111-112 of `main`: both threads at the top of the loop, every
semaphore free. -/
def start_system (c1 c2 : thread_args) : Threads :=
  { first := { self := c1, pending := [], in_section := false },
    second := { self := c2, pending := [], in_section := false },
    registry := fun _ => false }

/-- The semaphore calls of a list of pending actions are well bracketed: with
`inside` telling whether the thread is inside the print section, reserves and
releases of `SEMAPHORE_ID_PRINT` alternate and the list ends outside. -/
def well_bracketed : Bool → List Action → Bool
  | inside, [] => !inside
  | inside, Action.semaphore_reserve sem_id :: rest =>
    !inside && decide (sem_id = SEMAPHORE_ID_PRINT) && well_bracketed true rest
  | inside, Action.semaphore_release sem_id :: rest =>
    inside && decide (sem_id = SEMAPHORE_ID_PRINT) && well_bracketed false rest
  | inside, _ :: rest => well_bracketed inside rest

/-- The invariant behind mutual exclusion: the print semaphore is held exactly
when one of the threads is inside the section, the threads are not both
inside, and the pending actions of each are well bracketed. -/
def print_invariant (s : Threads) : Prop :=
  s.registry SEMAPHORE_ID_PRINT = (s.first.in_section || s.second.in_section) ∧
  ¬ (s.first.in_section = true ∧ s.second.in_section = true) ∧
  well_bracketed s.first.in_section s.first.pending = true ∧
  well_bracketed s.second.in_section s.second.pending = true

/-! ## The launcher -/

/-- Line 99 of `main`. -/
def led1 : gpiod_line := gpiod_line_new 17 gpiod_line_direction.GPIOD_LINE_DIRECTION_OUT

/-- Line 100 of `main`. -/
def led2 : gpiod_line := gpiod_line_new 22 gpiod_line_direction.GPIOD_LINE_DIRECTION_OUT

/-- Line 101 of `main`. -/
def led3 : gpiod_line := gpiod_line_new 23 gpiod_line_direction.GPIOD_LINE_DIRECTION_OUT

/-- Line 102 of `main`. -/
def led4 : gpiod_line := gpiod_line_new 24 gpiod_line_direction.GPIOD_LINE_DIRECTION_OUT

/-- Line 104 of `main`. -/
def button1 : gpiod_line := gpiod_line_new 27 gpiod_line_direction.GPIOD_LINE_DIRECTION_IN

/-- Line 105 of `main`. -/
def button2 : gpiod_line := gpiod_line_new 25 gpiod_line_direction.GPIOD_LINE_DIRECTION_IN

/-- Line 107 of `main`: `{ led1, led2, button1, 100, false, 0 }`. -/
def args1 : thread_args := ⟨led1, led2, button1, 100, false, 0⟩

/-- Line 108 of `main`: `{ led3, led4, button2, 500, false, 0 }`. -/
def args2 : thread_args := ⟨led3, led4, button2, 500, false, 0⟩

/-- Lines 111-112 of `main`: the argument structs of the threads it creates with
`pthread_create`, in the order of creation. -/
def main : List thread_args := [args1, args2]

/-- The line handles a thread context refers to. -/
def lines_of (self : thread_args) : List gpiod_line :=
  [self.led_a, self.led_b, self.button]

/-- A context whose two output fields hold the same line handle, with blinking
enabled. -/
def aliased_args : thread_args := ⟨led1, led1, button1, 100, true, 0⟩

/-! ## Shared lemmas about one iteration -/

/-- The result of lines 49-61 when the poll reports an edge. -/
lemma edge_check_detected (self : thread_args) (ev : edge_result) (h : ev.detected = true) :
    edge_check self ev =
      ({ self with previous_value := ev.stored, blink_enabled := !self.blink_enabled },
       [Action.gpiod_line_event_detected self.button gpiod_line_edge.GPIOD_LINE_EDGE_RISING,
        Action.store_blink_enabled (!self.blink_enabled),
        Action.semaphore_reserve SEMAPHORE_ID_PRINT,
        Action.printf (if self.blink_enabled = true then disabled_format else enabled_format)
          (gpiod_line_offset self.led_a) (gpiod_line_offset self.led_b),
        Action.delay_ms 10,
        Action.semaphore_release SEMAPHORE_ID_PRINT]) := by
  cases hb : self.blink_enabled <;> simp [edge_check, h, hb]

/-- The result of lines 49-61 when the poll reports no edge. -/
lemma edge_check_quiet (self : thread_args) (ev : edge_result) (h : ev.detected = false) :
    edge_check self ev =
      ({ self with previous_value := ev.stored },
       [Action.gpiod_line_event_detected self.button
          gpiod_line_edge.GPIOD_LINE_EDGE_RISING]) := by
  simp [edge_check, h]

/-- Lines 49-61 never write the line handles or the blink interval. -/
lemma edge_check_frame (self : thread_args) (ev : edge_result) :
    (edge_check self ev).1.led_a = self.led_a ∧ (edge_check self ev).1.led_b = self.led_b ∧
    (edge_check self ev).1.button = self.button ∧
    (edge_check self ev).1.blink_speed_ms = self.blink_speed_ms := by
  cases h : ev.detected
  · simp [edge_check_quiet self ev h]
  · simp [edge_check_detected self ev h]

/-- A whole iteration never writes the line handles or the blink interval. -/
lemma loop_iteration_frame (self : thread_args) (ev : edge_result) :
    (loop_iteration self ev).1.led_a = self.led_a ∧
    (loop_iteration self ev).1.led_b = self.led_b ∧
    (loop_iteration self ev).1.button = self.button ∧
    (loop_iteration self ev).1.blink_speed_ms = self.blink_speed_ms := by
  simpa [loop_iteration] using edge_check_frame self ev

/-- No number of iterations writes the line handles or the blink interval. -/
lemma run_thread_frame (evs : List edge_result) : ∀ self : thread_args,
    (run_thread self evs).1.led_a = self.led_a ∧
    (run_thread self evs).1.led_b = self.led_b ∧
    (run_thread self evs).1.button = self.button ∧
    (run_thread self evs).1.blink_speed_ms = self.blink_speed_ms := by
  induction evs with
  | nil => intro self; simp [run_thread]
  | cons ev rest ih =>
    intro self
    obtain ⟨ha, hb, hc, hd⟩ := ih (loop_iteration self ev).1
    obtain ⟨ka, kb, kc, kd⟩ := loop_iteration_frame self ev
    simp only [run_thread]
    exact ⟨ha.trans ka, hb.trans kb, hc.trans kc, hd.trans kd⟩

/-- Iterations without a detected edge keep the flag and print nothing. -/
lemma run_thread_quiet (evs : List edge_result) : ∀ self : thread_args,
    (∀ e ∈ evs, e.detected = false) →
    (run_thread self evs).1.blink_enabled = self.blink_enabled ∧
    (run_thread self evs).2.filter is_printf = [] := by
  induction evs with
  | nil => intro self _; simp [run_thread]
  | cons ev rest ih =>
    intro self hq
    have hev : ev.detected = false := hq ev (List.mem_cons_self _ _)
    obtain ⟨h1, h2⟩ := ih (loop_iteration self ev).1 fun e he => hq e (List.mem_cons_of_mem _ he)
    have hflag : (loop_iteration self ev).1.blink_enabled = self.blink_enabled := by
      simp [loop_iteration, edge_check_quiet self ev hev]
    have hprint : (loop_iteration self ev).2.filter is_printf = [] := by
      cases hb : self.blink_enabled <;>
        simp [loop_iteration, edge_check_quiet self ev hev, drive_leds, hb, is_printf]
    simp only [run_thread, List.filter_append, h2, hprint, List.append_nil]
    exact ⟨h1.trans hflag, trivial⟩

/-! ## C1: order of the actions of an iteration that detects an edge -/

/-- C1 (as stated) fails: in the iteration of the first context of `main` that
detects an edge, the store to `blink_enabled` is performed while the print
semaphore is not held, so the flags recorded at the stores are not `[true]`. -/
theorem flip_not_under_semaphore :
    ¬ (held_at is_store false (loop_iteration args1 ⟨true, 1⟩).2 = [true]) := by
  decide

/-- C1 (amended): in every iteration that detects an edge the actions of lines
49-61 are, in this order, the poll, the flip of `blink_enabled`, the reserve of
`SEMAPHORE_ID_PRINT`, the status print, the 10 ms hold delay and the release;
the flip happens before the reserve, with the semaphore not held, and the print
and the hold delay happen while it is held.  The output part follows. -/
theorem flip_then_reserve_print_hold_release (self : thread_args) (ev : edge_result)
    (h : ev.detected = true) :
    (edge_check self ev).2 =
      [Action.gpiod_line_event_detected self.button gpiod_line_edge.GPIOD_LINE_EDGE_RISING,
       Action.store_blink_enabled (!self.blink_enabled),
       Action.semaphore_reserve SEMAPHORE_ID_PRINT,
       Action.printf (if self.blink_enabled = true then disabled_format else enabled_format)
         (gpiod_line_offset self.led_a) (gpiod_line_offset self.led_b),
       Action.delay_ms 10,
       Action.semaphore_release SEMAPHORE_ID_PRINT] ∧
    (loop_iteration self ev).2 = (edge_check self ev).2 ++ drive_leds (edge_check self ev).1 ∧
    (edge_check self ev).1.blink_enabled = (!self.blink_enabled) ∧
    held_at is_store false (edge_check self ev).2 = [false] ∧
    held_at is_printf false (edge_check self ev).2 = [true] ∧
    held_at is_delay false (edge_check self ev).2 = [true] := by
  simp [loop_iteration, edge_check_detected self ev h, held_at, is_store, is_printf, is_delay]

/-- Witness for C1 (amended): the first context of `main`, edge detected. -/
theorem flip_then_reserve_print_hold_release_witness :
    (⟨true, 1⟩ : edge_result).detected = true ∧
    (edge_check args1 ⟨true, 1⟩).1.blink_enabled = (!args1.blink_enabled) ∧
    held_at is_store false (edge_check args1 ⟨true, 1⟩).2 = [false] ∧
    held_at is_printf false (edge_check args1 ⟨true, 1⟩).2 = [true] :=
  have h := flip_then_reserve_print_hold_release args1 ⟨true, 1⟩ rfl
  ⟨rfl, h.2.2.1, h.2.2.2.1, h.2.2.2.2.1⟩

/-! ## C9: the semaphore calls bracket the print -/

/-- C9: an iteration that detects an edge performs exactly one
`semaphore_reserve` and exactly one `semaphore_release`, both with ID 0, which
is a valid ID (between `SEM_ID_MIN` = 0 and `SEM_ID_MAX` = 31), so that
neither call returns the failure of an invalid ID; strictly between the two lie exactly the status print followed by `delay_ms(10)`,
whatever `blink_speed_ms` is. -/
theorem reserve_release_bracket_print (self : thread_args) (ev : edge_result)
    (h : ev.detected = true) :
    (loop_iteration self ev).2.filter is_reserve = [Action.semaphore_reserve 0] ∧
    (loop_iteration self ev).2.filter is_release = [Action.semaphore_release 0] ∧
    valid_sem_id 0 = true ∧ SEM_ID_MIN = 0 ∧ SEM_ID_MAX = 31 ∧
    (∀ (registry : Nat → Bool) (result : Bool × (Nat → Bool)),
      semaphore_reserve registry 0 = some result → result.1 = true) ∧
    (∀ registry : Nat → Bool, (semaphore_release registry 0).1 = true) ∧
    reserved_section (loop_iteration self ev).2 =
      [Action.printf
         (if (loop_iteration self ev).1.blink_enabled = true then enabled_format
          else disabled_format)
         (gpiod_line_offset self.led_a) (gpiod_line_offset self.led_b),
       Action.delay_ms 10] ∧
    (loop_iteration self ev).2.filter is_printf =
      [Action.printf
         (if (loop_iteration self ev).1.blink_enabled = true then enabled_format
          else disabled_format)
         (gpiod_line_offset self.led_a) (gpiod_line_offset self.led_b)] := by
  cases hb : self.blink_enabled <;>
    simp [loop_iteration, edge_check_detected self ev h, drive_leds, hb, is_reserve,
      is_release, is_printf, reserved_section, SEMAPHORE_ID_PRINT, valid_sem_id, SEM_ID_MIN,
      SEM_ID_MAX, List.dropWhile, List.takeWhile, semaphore_reserve, semaphore_release]

/-- Witness for C9: the second context of `main` (blink interval 500 ms). -/
theorem reserve_release_bracket_print_witness :
    (⟨true, 1⟩ : edge_result).detected = true ∧
    reserved_section (loop_iteration args2 ⟨true, 1⟩).2 =
      [Action.printf enabled_format 23 24, Action.delay_ms 10] :=
  ⟨rfl, (reserve_release_bracket_print args2 ⟨true, 1⟩ rfl).2.2.2.2.2.2.2.1⟩

/-! ## C2: the enabled / disabled scenario -/

/-- C2: from `blink_enabled = false`, an iteration that detects an edge prints
exactly one line, the "now enabled!" message with the offsets of `led_a` and
`led_b` in that order, and leaves `blink_enabled = true`; after any number of
iterations without an edge (which print nothing), an iteration that detects a
second edge prints exactly one "now disabled!" message with the same offsets
and leaves `blink_enabled = false`.  In every iteration that detects an edge
the message is the one of the new value of the flag. -/
theorem enabled_then_disabled (self : thread_args) (ev1 ev2 : edge_result)
    (quiet : List edge_result) (h0 : self.blink_enabled = false)
    (h1 : ev1.detected = true) (hq : ∀ e ∈ quiet, e.detected = false)
    (h2 : ev2.detected = true) :
    (loop_iteration self ev1).2.filter is_printf =
      [Action.printf enabled_format (gpiod_line_offset self.led_a)
         (gpiod_line_offset self.led_b)] ∧
    (loop_iteration self ev1).1.blink_enabled = true ∧
    (run_thread (loop_iteration self ev1).1 quiet).2.filter is_printf = [] ∧
    (loop_iteration (run_thread (loop_iteration self ev1).1 quiet).1 ev2).2.filter is_printf =
      [Action.printf disabled_format (gpiod_line_offset self.led_a)
         (gpiod_line_offset self.led_b)] ∧
    (loop_iteration (run_thread (loop_iteration self ev1).1 quiet).1 ev2).1.blink_enabled
      = false ∧
    ∀ (other : thread_args) (ev : edge_result), ev.detected = true →
      (loop_iteration other ev).2.filter is_printf =
        [Action.printf
           (if (loop_iteration other ev).1.blink_enabled = true then enabled_format
            else disabled_format)
           (gpiod_line_offset other.led_a) (gpiod_line_offset other.led_b)] := by
  have key : ∀ (other : thread_args) (ev : edge_result), ev.detected = true →
      (loop_iteration other ev).2.filter is_printf =
        [Action.printf
           (if (loop_iteration other ev).1.blink_enabled = true then enabled_format
            else disabled_format)
           (gpiod_line_offset other.led_a) (gpiod_line_offset other.led_b)] ∧
      (loop_iteration other ev).1.blink_enabled = (!other.blink_enabled) := by
    intro other ev hev
    cases hb : other.blink_enabled <;>
      simp [loop_iteration, edge_check_detected other ev hev, drive_leds, hb, is_printf]
  obtain ⟨p1, f1⟩ := key self ev1 h1
  rw [h0] at f1
  obtain ⟨fq, pq⟩ := run_thread_quiet quiet (loop_iteration self ev1).1 hq
  obtain ⟨la, lb, _, _⟩ := run_thread_frame quiet (loop_iteration self ev1).1
  obtain ⟨ka, kb, _, _⟩ := loop_iteration_frame self ev1
  obtain ⟨p2, f2⟩ := key (run_thread (loop_iteration self ev1).1 quiet).1 ev2 h2
  rw [fq, f1] at f2
  refine ⟨?_, by simpa using f1, pq, ?_, by simpa using f2, fun other ev hev => (key other ev hev).1⟩
  · rw [p1, f1]; simp
  · rw [p2, f2, la, lb, ka, kb]; simp

/-- Witness for C2: the first context of `main`, an edge, two quiet iterations,
a second edge. -/
theorem enabled_then_disabled_witness :
    args1.blink_enabled = false ∧
    (∀ e ∈ [(⟨false, 1⟩ : edge_result), ⟨false, 0⟩], e.detected = false) ∧
    (loop_iteration args1 ⟨true, 1⟩).2.filter is_printf =
      [Action.printf enabled_format 17 22] ∧
    (loop_iteration (run_thread (loop_iteration args1 ⟨true, 1⟩).1
        [⟨false, 1⟩, ⟨false, 0⟩]).1 ⟨true, 1⟩).2.filter is_printf =
      [Action.printf disabled_format 17 22] :=
  have h := enabled_then_disabled args1 ⟨true, 1⟩ ⟨true, 1⟩ [⟨false, 1⟩, ⟨false, 0⟩]
    rfl rfl (by decide) rfl
  ⟨rfl, by decide, h.1, h.2.2.2.1⟩

/-! ## C10: what an iteration leaves alone -/

/-- C10: an iteration without a detected edge leaves `blink_enabled` unchanged
and consists of the poll followed by the output part only, so it performs no
`semaphore_reserve`, no `semaphore_release`, no print and no hold delay (its
only waits are the blink waits of the output part); and every iteration, with
or without an edge, leaves `led_a`, `led_b`, `button` and `blink_speed_ms`
unchanged. -/
theorem quiet_iteration_frame (self : thread_args) (ev : edge_result) :
    (ev.detected = false →
      (loop_iteration self ev).1.blink_enabled = self.blink_enabled ∧
      (loop_iteration self ev).2 =
        Action.gpiod_line_event_detected self.button gpiod_line_edge.GPIOD_LINE_EDGE_RISING ::
          drive_leds self ∧
      (loop_iteration self ev).2.filter is_reserve = [] ∧
      (loop_iteration self ev).2.filter is_release = [] ∧
      (loop_iteration self ev).2.filter is_printf = [] ∧
      delays (loop_iteration self ev).2 =
        (if self.blink_enabled = true then [self.blink_speed_ms, self.blink_speed_ms]
         else [])) ∧
    (loop_iteration self ev).1.led_a = self.led_a ∧
    (loop_iteration self ev).1.led_b = self.led_b ∧
    (loop_iteration self ev).1.button = self.button ∧
    (loop_iteration self ev).1.blink_speed_ms = self.blink_speed_ms := by
  refine ⟨fun h => ?_, loop_iteration_frame self ev⟩
  cases hb : self.blink_enabled <;>
    simp [loop_iteration, edge_check_quiet self ev h, drive_leds, hb, is_reserve, is_release,
      is_printf, delays]

/-- Witness for C10: the first context of `main`, switched to blinking, polled
without an edge. -/
theorem quiet_iteration_frame_witness :
    (⟨false, 0⟩ : edge_result).detected = false ∧
    delays (loop_iteration { args1 with blink_enabled := true } ⟨false, 0⟩).2 = [100, 100] ∧
    (loop_iteration { args1 with blink_enabled := true } ⟨false, 0⟩).1.blink_enabled = true :=
  have h := (quiet_iteration_frame { args1 with blink_enabled := true } ⟨false, 0⟩).1 rfl
  ⟨rfl, h.2.2.2.2.2, h.1⟩

/-! ## C8: the contexts built by `main` -/

/-- C8: `main` builds exactly two contexts, the first with blink interval 100
and the second with 500, both with `blink_enabled = false` and
`previous_value = 0`; the output pins are 17, 22 and 23, 24, the input pins 27
and 25, all six pairwise distinct, and the two contexts share no line handle. -/
theorem main_two_independent_contexts :
    main = [args1, args2] ∧ main.length = 2 ∧
    args1.blink_speed_ms = 100 ∧ args2.blink_speed_ms = 500 ∧
    args1.blink_enabled = false ∧ args2.blink_enabled = false ∧
    args1.previous_value = 0 ∧ args2.previous_value = 0 ∧
    [args1.led_a, args1.led_b] =
      [gpiod_line_new 17 gpiod_line_direction.GPIOD_LINE_DIRECTION_OUT,
       gpiod_line_new 22 gpiod_line_direction.GPIOD_LINE_DIRECTION_OUT] ∧
    [args2.led_a, args2.led_b] =
      [gpiod_line_new 23 gpiod_line_direction.GPIOD_LINE_DIRECTION_OUT,
       gpiod_line_new 24 gpiod_line_direction.GPIOD_LINE_DIRECTION_OUT] ∧
    args1.button = gpiod_line_new 27 gpiod_line_direction.GPIOD_LINE_DIRECTION_IN ∧
    args2.button = gpiod_line_new 25 gpiod_line_direction.GPIOD_LINE_DIRECTION_IN ∧
    ((lines_of args1 ++ lines_of args2).map gpiod_line_offset).Nodup ∧
    (∀ l ∈ lines_of args1, l ∉ lines_of args2) := by
  decide

/-! ## C5, C6: the output part of an iteration -/

/-- Observing a concatenation: the second part is observed from the line values
the first part leaves. -/
lemma observe_append (a b : gpiod_line) (t2 : List Action) :
    ∀ (t1 : List Action) (values : gpiod_line → Nat),
    observe a b values (t1 ++ t2) =
      observe a b values t1 ++ observe a b (line_values values t1) t2 := by
  intro t1
  induction t1 with
  | nil => intro values; simp [observe, line_values]
  | cons act rest ih => intro values; simp [observe, line_values, ih]

/-- Lines 49-61 call no `gpiod_line_set_value`: the line values are untouched. -/
lemma edge_check_line_values (self : thread_args) (ev : edge_result)
    (values : gpiod_line → Nat) :
    line_values values (edge_check self ev).2 = values := by
  cases h : ev.detected
  · simp [edge_check_quiet self ev h, line_values, apply_action]
  · simp [edge_check_detected self ev h, line_values, apply_action]

/-- C5: whatever the context and the prior line values, after an iteration whose
flag is false after the edge check both `led_a` and `led_b` have value 0; the
output part of that iteration is the two calls that set them to 0, and the only
wait of the whole iteration is the 10 ms hold delay of a detected edge, so no
blink-interval delay is performed. -/
theorem idle_iteration_lines_low (self : thread_args) (ev : edge_result)
    (values : gpiod_line → Nat) (h : (edge_check self ev).1.blink_enabled = false) :
    line_values values (loop_iteration self ev).2 self.led_a = 0 ∧
    line_values values (loop_iteration self ev).2 self.led_b = 0 ∧
    (loop_iteration self ev).1.blink_enabled = false ∧
    drive_leds (edge_check self ev).1 =
      [Action.gpiod_line_set_value self.led_a 0, Action.gpiod_line_set_value self.led_b 0] ∧
    (loop_iteration self ev).2 = (edge_check self ev).2 ++ drive_leds (edge_check self ev).1 ∧
    delays (loop_iteration self ev).2 = (if ev.detected = true then [10] else []) := by
  cases hd : ev.detected
  · rw [edge_check_quiet self ev hd] at h
    simp only at h
    simp [loop_iteration, edge_check_quiet self ev hd, drive_leds, h, line_values,
      apply_action, delays]
  · rw [edge_check_detected self ev hd] at h
    simp only [Bool.not_eq_false'] at h
    simp [loop_iteration, edge_check_detected self ev hd, drive_leds, h, line_values,
      apply_action, delays]

/-- Witness for C5: the first context of `main` (idle), no edge, both lines
high beforehand. -/
theorem idle_iteration_lines_low_witness :
    (edge_check args1 ⟨false, 0⟩).1.blink_enabled = false ∧
    line_values (fun _ => 1) (loop_iteration args1 ⟨false, 0⟩).2 args1.led_a = 0 ∧
    line_values (fun _ => 1) (loop_iteration args1 ⟨false, 0⟩).2 args1.led_b = 0 :=
  have h := idle_iteration_lines_low args1 ⟨false, 0⟩ (fun _ => 1) rfl
  ⟨rfl, h.1, h.2.1⟩

/-- C6 (as stated) fails for a context whose `led_a` and `led_b` are the same
line: in a blinking iteration of `aliased_args` the waits of the output part
are not spent at (1,0) and (0,1). -/
theorem aliased_waits_do_not_alternate :
    ¬ (waits aliased_args.led_a aliased_args.led_b (fun _ => 0)
         (drive_leds (edge_check aliased_args ⟨false, 0⟩).1) =
       [(Action.delay_ms aliased_args.blink_speed_ms, 1, 0),
        (Action.delay_ms aliased_args.blink_speed_ms, 0, 1)]) := by
  decide

/-- C6 (amended): when the flag is true after the edge check, the output part
of the iteration is exactly: set `led_a` to 1, set `led_b` to 0, wait
`blink_speed_ms`, set `led_a` to 0, set `led_b` to 1, wait `blink_speed_ms`,
for every context.  When `led_a` and `led_b` are two distinct lines, the pair of
values is (1,0) during the first wait and (0,1) during the second, whatever the
values were before. -/
theorem blinking_iteration_alternates (self : thread_args) (ev : edge_result)
    (values : gpiod_line → Nat) (h : (edge_check self ev).1.blink_enabled = true) :
    drive_leds (edge_check self ev).1 =
      [Action.gpiod_line_set_value self.led_a 1,
       Action.gpiod_line_set_value self.led_b 0,
       Action.delay_ms self.blink_speed_ms,
       Action.gpiod_line_set_value self.led_a 0,
       Action.gpiod_line_set_value self.led_b 1,
       Action.delay_ms self.blink_speed_ms] ∧
    (loop_iteration self ev).2 = (edge_check self ev).2 ++ drive_leds (edge_check self ev).1 ∧
    (self.led_a ≠ self.led_b →
      observe self.led_a self.led_b values (loop_iteration self ev).2 =
        (edge_check self ev).2.map (fun act => (act, values self.led_a, values self.led_b)) ++
        [(Action.gpiod_line_set_value self.led_a 1, 1, values self.led_b),
         (Action.gpiod_line_set_value self.led_b 0, 1, 0),
         (Action.delay_ms self.blink_speed_ms, 1, 0),
         (Action.gpiod_line_set_value self.led_a 0, 0, 0),
         (Action.gpiod_line_set_value self.led_b 1, 0, 1),
         (Action.delay_ms self.blink_speed_ms, 0, 1)] ∧
      waits self.led_a self.led_b values (drive_leds (edge_check self ev).1) =
        [(Action.delay_ms self.blink_speed_ms, 1, 0),
         (Action.delay_ms self.blink_speed_ms, 0, 1)]) := by
  cases hd : ev.detected
  · rw [edge_check_quiet self ev hd] at h
    simp only at h
    refine ⟨by simp [drive_leds, edge_check_quiet self ev hd, h], by simp [loop_iteration], ?_⟩
    intro hab
    have hba : self.led_b ≠ self.led_a := fun e => hab e.symm
    constructor
    · simp [loop_iteration, edge_check_quiet self ev hd, drive_leds, h, observe,
        apply_action, hab, hba]
    · simp [waits, edge_check_quiet self ev hd, drive_leds, h, observe, apply_action, hab,
        hba, is_delay]
  · rw [edge_check_detected self ev hd] at h
    simp only [Bool.not_eq_true'] at h
    refine ⟨by simp [drive_leds, edge_check_detected self ev hd, h], by simp [loop_iteration],
      ?_⟩
    intro hab
    have hba : self.led_b ≠ self.led_a := fun e => hab e.symm
    constructor
    · simp [loop_iteration, edge_check_detected self ev hd, drive_leds, h, observe,
        apply_action, hab, hba]
    · simp [waits, edge_check_detected self ev hd, drive_leds, h, observe, apply_action, hab,
        hba, is_delay]

/-- Witness for C6 (amended): the second context of `main`, which an edge
switches to blinking, both lines low beforehand. -/
theorem blinking_iteration_alternates_witness :
    (edge_check args2 ⟨true, 1⟩).1.blink_enabled = true ∧ args2.led_a ≠ args2.led_b ∧
    observe args2.led_a args2.led_b (fun _ => 0) (loop_iteration args2 ⟨true, 1⟩).2 =
      (edge_check args2 ⟨true, 1⟩).2.map (fun act => (act, 0, 0)) ++
      [(Action.gpiod_line_set_value led3 1, 1, 0),
       (Action.gpiod_line_set_value led4 0, 1, 0),
       (Action.delay_ms 500, 1, 0),
       (Action.gpiod_line_set_value led3 0, 0, 0),
       (Action.gpiod_line_set_value led4 1, 0, 1),
       (Action.delay_ms 500, 0, 1)] ∧
    waits args2.led_a args2.led_b (fun _ => 0) (drive_leds (edge_check args2 ⟨true, 1⟩).1) =
      [(Action.delay_ms 500, 1, 0), (Action.delay_ms 500, 0, 1)] :=
  ⟨rfl, by decide,
    (blinking_iteration_alternates args2 ⟨true, 1⟩ (fun _ => 0) rfl).2.2 (by decide)⟩

/-! ## C4: the two lines while blinking -/

/-- C4 (as stated) fails.  Run the first context of `main` from low lines for an
iteration that detects an edge (it starts blinking and ends with `led_b` high)
and one more iteration: the call that sets `led_a` to 1 then leaves both lines
high.  And in a blinking iteration of `aliased_args`, whose `led_a` and `led_b`
are the same line, every call that sets the line to 1 leaves the pair (1, 1). -/
theorem both_high_after_led_a_set :
    ¬ never_both_high args1.led_a args1.led_b (fun _ => 0)
        (run_thread args1 [⟨true, 1⟩, ⟨false, 1⟩]).2 ∧
    ¬ never_both_high aliased_args.led_a aliased_args.led_b (fun _ => 0)
        (run_thread aliased_args [⟨false, 0⟩]).2 :=
  ⟨fun h => h (Action.gpiod_line_set_value led1 1, 1, 1) (by decide) rfl ⟨rfl, rfl⟩,
   fun h => h (Action.gpiod_line_set_value led1 1, 1, 1) (by decide) rfl ⟨rfl, rfl⟩⟩

/-- One iteration, any two lines: after every `gpiod_line_set_value` call other
than one that sets `led_a` to 1, the pair is not (1, 1). -/
lemma loop_iteration_set_calls (self : thread_args) (ev : edge_result)
    (values : gpiod_line → Nat) (a b : gpiod_line) (ha : self.led_a = a)
    (hb : self.led_b = b) :
    ∀ snap ∈ observe a b values (loop_iteration self ev).2, is_set_value snap.1 = true →
      snap.1 ≠ Action.gpiod_line_set_value a 1 → ¬ both_high snap := by
  intro snap hmem hset hne
  by_cases hab : a = b
  · subst hab
    cases hd : ev.detected <;> cases hf : self.blink_enabled
    · simp [loop_iteration, edge_check_quiet self ev hd, drive_leds, hf, observe,
        apply_action, ha, hb] at hmem
      rcases hmem with rfl | rfl | rfl <;> simp_all [is_set_value, both_high]
    · simp [loop_iteration, edge_check_quiet self ev hd, drive_leds, hf, observe,
        apply_action, ha, hb] at hmem
      rcases hmem with rfl | rfl | rfl | rfl | rfl | rfl | rfl <;>
        simp_all [is_set_value, both_high]
    · simp [loop_iteration, edge_check_detected self ev hd, drive_leds, hf, observe,
        apply_action, ha, hb] at hmem
      rcases hmem with rfl | rfl | rfl | rfl | rfl | rfl | rfl | rfl | rfl | rfl | rfl | rfl <;>
        simp_all [is_set_value, both_high]
    · simp [loop_iteration, edge_check_detected self ev hd, drive_leds, hf, observe,
        apply_action, ha, hb] at hmem
      rcases hmem with rfl | rfl | rfl | rfl | rfl | rfl | rfl | rfl <;>
        simp_all [is_set_value, both_high]
  · have hba : ¬ b = a := fun e => hab e.symm
    cases hd : ev.detected <;> cases hf : self.blink_enabled
    · simp [loop_iteration, edge_check_quiet self ev hd, drive_leds, hf, observe,
        apply_action, ha, hb, hab, hba] at hmem
      rcases hmem with rfl | rfl | rfl <;> simp_all [is_set_value, both_high]
    · simp [loop_iteration, edge_check_quiet self ev hd, drive_leds, hf, observe,
        apply_action, ha, hb, hab, hba] at hmem
      rcases hmem with rfl | rfl | rfl | rfl | rfl | rfl | rfl <;>
        simp_all [is_set_value, both_high]
    · simp [loop_iteration, edge_check_detected self ev hd, drive_leds, hf, observe,
        apply_action, ha, hb, hab, hba] at hmem
      rcases hmem with rfl | rfl | rfl | rfl | rfl | rfl | rfl | rfl | rfl | rfl | rfl | rfl <;>
        simp_all [is_set_value, both_high]
    · simp [loop_iteration, edge_check_detected self ev hd, drive_leds, hf, observe,
        apply_action, ha, hb, hab, hba] at hmem
      rcases hmem with rfl | rfl | rfl | rfl | rfl | rfl | rfl | rfl <;>
        simp_all [is_set_value, both_high]

/-- Any number of iterations: the statement of `loop_iteration_set_calls` for
the whole trace. -/
lemma run_thread_set_calls (a b : gpiod_line) (evs : List edge_result) :
    ∀ (self : thread_args) (values : gpiod_line → Nat), self.led_a = a → self.led_b = b →
    ∀ snap ∈ observe a b values (run_thread self evs).2, is_set_value snap.1 = true →
      snap.1 ≠ Action.gpiod_line_set_value a 1 → ¬ both_high snap := by
  induction evs with
  | nil => intro self values _ _ snap hmem; simp [run_thread, observe] at hmem
  | cons ev rest ih =>
    intro self values ha hb snap hmem
    simp only [run_thread, observe_append, List.mem_append] at hmem
    obtain ⟨ka, kb, _, _⟩ := loop_iteration_frame self ev
    rcases hmem with hmem | hmem
    · exact loop_iteration_set_calls self ev values a b ha hb snap hmem
    · exact ih (loop_iteration self ev).1 _ (ka.trans ha) (kb.trans hb) snap hmem

/-- One iteration, two distinct lines: every call that sets `led_a` to 1 is
followed at once by the call that sets `led_b` to 0, the iteration does not end
on such a call, it leaves the lines not both high, and from lines that are not
both high no other action of it sees them both high. -/
lemma loop_iteration_distinct (self : thread_args) (ev : edge_result)
    (values : gpiod_line → Nat) (a b : gpiod_line) (ha : self.led_a = a)
    (hb : self.led_b = b) (hab : a ≠ b) :
    List.Chain' (cleared_next a b) (observe a b values (loop_iteration self ev).2) ∧
    (∀ s ∈ (observe a b values (loop_iteration self ev).2).getLast?,
      s.1 ≠ Action.gpiod_line_set_value a 1) ∧
    ¬ (line_values values (loop_iteration self ev).2 a = 1 ∧
       line_values values (loop_iteration self ev).2 b = 1) ∧
    (¬ (values a = 1 ∧ values b = 1) →
      ∀ s ∈ observe a b values (loop_iteration self ev).2,
        s.1 ≠ Action.gpiod_line_set_value a 1 → ¬ both_high s) := by
  have hba : ¬ b = a := fun e => hab e.symm
  cases hd : ev.detected <;> cases hf : self.blink_enabled
  · refine ⟨?_, ?_, ?_, ?_⟩
    · simp [loop_iteration, edge_check_quiet self ev hd, drive_leds, hf, observe,
        apply_action, ha, hb, hab, hba, List.chain'_cons, cleared_next]
    · simp [loop_iteration, edge_check_quiet self ev hd, drive_leds, hf, observe,
        apply_action, ha, hb, hab, hba]
    · simp [loop_iteration, edge_check_quiet self ev hd, drive_leds, hf, line_values,
        apply_action, ha, hb, hab, hba]
    · intro hv s hmem hne
      simp [loop_iteration, edge_check_quiet self ev hd, drive_leds, hf, observe,
        apply_action, ha, hb, hab, hba] at hmem
      rcases hmem with rfl | rfl | rfl <;> simp_all [both_high]
  · refine ⟨?_, ?_, ?_, ?_⟩
    · simp [loop_iteration, edge_check_quiet self ev hd, drive_leds, hf, observe,
        apply_action, ha, hb, hab, hba, List.chain'_cons, cleared_next]
    · simp [loop_iteration, edge_check_quiet self ev hd, drive_leds, hf, observe,
        apply_action, ha, hb, hab, hba]
    · simp [loop_iteration, edge_check_quiet self ev hd, drive_leds, hf, line_values,
        apply_action, ha, hb, hab, hba]
    · intro hv s hmem hne
      simp [loop_iteration, edge_check_quiet self ev hd, drive_leds, hf, observe,
        apply_action, ha, hb, hab, hba] at hmem
      rcases hmem with rfl | rfl | rfl | rfl | rfl | rfl | rfl <;> simp_all [both_high]
  · refine ⟨?_, ?_, ?_, ?_⟩
    · simp [loop_iteration, edge_check_detected self ev hd, drive_leds, hf, observe,
        apply_action, ha, hb, hab, hba, List.chain'_cons, cleared_next]
    · simp [loop_iteration, edge_check_detected self ev hd, drive_leds, hf, observe,
        apply_action, ha, hb, hab, hba]
    · simp [loop_iteration, edge_check_detected self ev hd, drive_leds, hf, line_values,
        apply_action, ha, hb, hab, hba]
    · intro hv s hmem hne
      simp [loop_iteration, edge_check_detected self ev hd, drive_leds, hf, observe,
        apply_action, ha, hb, hab, hba] at hmem
      rcases hmem with rfl | rfl | rfl | rfl | rfl | rfl | rfl | rfl | rfl | rfl | rfl | rfl <;>
        simp_all [both_high]
  · refine ⟨?_, ?_, ?_, ?_⟩
    · simp [loop_iteration, edge_check_detected self ev hd, drive_leds, hf, observe,
        apply_action, ha, hb, hab, hba, List.chain'_cons, cleared_next]
    · simp [loop_iteration, edge_check_detected self ev hd, drive_leds, hf, observe,
        apply_action, ha, hb, hab, hba]
    · simp [loop_iteration, edge_check_detected self ev hd, drive_leds, hf, line_values,
        apply_action, ha, hb, hab, hba]
    · intro hv s hmem hne
      simp [loop_iteration, edge_check_detected self ev hd, drive_leds, hf, observe,
        apply_action, ha, hb, hab, hba] at hmem
      rcases hmem with rfl | rfl | rfl | rfl | rfl | rfl | rfl | rfl <;> simp_all [both_high]

/-- Any number of iterations, two distinct lines: the first, second and fourth
statements of `loop_iteration_distinct` for the whole trace. -/
lemma run_thread_distinct (a b : gpiod_line) (hab : a ≠ b) (evs : List edge_result) :
    ∀ (self : thread_args) (values : gpiod_line → Nat), self.led_a = a → self.led_b = b →
    List.Chain' (cleared_next a b) (observe a b values (run_thread self evs).2) ∧
    (∀ s ∈ (observe a b values (run_thread self evs).2).getLast?,
      s.1 ≠ Action.gpiod_line_set_value a 1) ∧
    (¬ (values a = 1 ∧ values b = 1) →
      ∀ s ∈ observe a b values (run_thread self evs).2,
        s.1 ≠ Action.gpiod_line_set_value a 1 → ¬ both_high s) := by
  induction evs with
  | nil => intro self values _ _; simp [run_thread, observe]
  | cons ev rest ih =>
    intro self values ha hb
    obtain ⟨ka, kb, _, _⟩ := loop_iteration_frame self ev
    obtain ⟨c1, l1, v1, n1⟩ := loop_iteration_distinct self ev values a b ha hb hab
    obtain ⟨c2, l2, n2⟩ := ih (loop_iteration self ev).1
      (line_values values (loop_iteration self ev).2) (ka.trans ha) (kb.trans hb)
    simp only [run_thread, observe_append]
    refine ⟨?_, ?_, ?_⟩
    · refine List.Chain'.append c1 c2 ?_
      intro x hx y _ hset
      exact absurd hset (l1 x hx)
    · intro s hs
      rw [List.getLast?_append] at hs
      cases hlast : (observe a b (line_values values (loop_iteration self ev).2)
          (run_thread (loop_iteration self ev).1 rest).2).getLast? with
      | none => rw [hlast] at hs; exact l1 s (by simpa using hs)
      | some t => rw [hlast] at hs; exact l2 s (by simpa [hlast] using hs)
    · intro hv s hmem
      rcases List.mem_append.1 hmem with hmem | hmem
      · exact n1 hv s hmem
      · exact n2 v1 s hmem

/-- C4 (amended): across any sequence of iterations and from any prior line
values, the pair (`led_a`, `led_b`) is not (1, 1) after any
`gpiod_line_set_value` call other than a call that sets `led_a` to 1.  When
`led_a` and `led_b` are two distinct lines, each call that sets `led_a` to 1
(line 64) is followed at once by the call that sets `led_b` to 0 (line 65),
which leaves the pair (1, 0), and no trace ends on such a call; so, starting
from lines that are not both high, the lines are both high after no action
other than that call, in particular during no wait. -/
theorem not_both_high_except_led_a_set (self : thread_args) (evs : List edge_result)
    (values : gpiod_line → Nat) :
    (∀ snap ∈ observe self.led_a self.led_b values (run_thread self evs).2,
      is_set_value snap.1 = true → snap.1 ≠ Action.gpiod_line_set_value self.led_a 1 →
      ¬ both_high snap) ∧
    (self.led_a ≠ self.led_b →
      List.Chain' (cleared_next self.led_a self.led_b)
        (observe self.led_a self.led_b values (run_thread self evs).2) ∧
      (∀ snap ∈ (observe self.led_a self.led_b values (run_thread self evs).2).getLast?,
        snap.1 ≠ Action.gpiod_line_set_value self.led_a 1) ∧
      (¬ (values self.led_a = 1 ∧ values self.led_b = 1) →
        ∀ snap ∈ observe self.led_a self.led_b values (run_thread self evs).2,
          snap.1 ≠ Action.gpiod_line_set_value self.led_a 1 → ¬ both_high snap)) :=
  ⟨run_thread_set_calls self.led_a self.led_b evs self values rfl rfl,
   fun hab => run_thread_distinct self.led_a self.led_b hab evs self values rfl rfl⟩

/-- Witness for C4 (amended): the run of the counterexample on the first
context of `main`; the second wait of its first blinking iteration is spent at
(0, 1). -/
theorem not_both_high_except_led_a_set_witness :
    args1.led_a ≠ args1.led_b ∧
    ¬ ((fun _ : gpiod_line => 0) args1.led_a = 1 ∧ (fun _ : gpiod_line => 0) args1.led_b = 1) ∧
    (Action.delay_ms 100, 0, 1) ∈
      observe args1.led_a args1.led_b (fun _ => 0)
        (run_thread args1 [⟨true, 1⟩, ⟨false, 1⟩]).2 ∧
    ¬ both_high (Action.delay_ms 100, 0, 1) :=
  ⟨by decide, by decide, by decide,
    ((not_both_high_except_led_a_set args1 [⟨true, 1⟩, ⟨false, 1⟩] (fun _ => 0)).2
      (by decide)).2.2 (by decide) (Action.delay_ms 100, 0, 1) (by decide) (by decide)⟩

/-! ## C3: a held button toggles once -/

/-- An iteration without an edge stores nothing to the flag and keeps it; the
stored sample is the one of the poll. -/
lemma loop_iteration_stores_quiet (self : thread_args) (ev : edge_result)
    (hd : ev.detected = false) :
    (loop_iteration self ev).2.filter is_store = [] ∧
    (loop_iteration self ev).1.blink_enabled = self.blink_enabled ∧
    (loop_iteration self ev).1.previous_value = ev.stored := by
  cases hb : self.blink_enabled <;>
    simp [loop_iteration, edge_check_quiet self ev hd, drive_leds, hb, is_store]

/-- An iteration that detects an edge stores the flipped flag once; the stored
sample is the one of the poll. -/
lemma loop_iteration_stores_detected (self : thread_args) (ev : edge_result)
    (hd : ev.detected = true) :
    (loop_iteration self ev).2.filter is_store =
      [Action.store_blink_enabled (!self.blink_enabled)] ∧
    (loop_iteration self ev).1.blink_enabled = (!self.blink_enabled) ∧
    (loop_iteration self ev).1.previous_value = ev.stored := by
  cases hb : self.blink_enabled <;>
    simp [loop_iteration, edge_check_detected self ev hd, drive_leds, hb, is_store]

/-- While the stored sample is high, further high polls never toggle. -/
lemma run_thread_sampled_held (m : Nat) : ∀ self : thread_args, self.previous_value ≠ 0 →
    (run_thread_sampled self (List.replicate m 1)).2.filter is_store = [] ∧
    (run_thread_sampled self (List.replicate m 1)).1.blink_enabled = self.blink_enabled := by
  induction m with
  | zero => intro self _; simp [run_thread_sampled]
  | succ k ih =>
    intro self hp
    have hev : gpiod_line_event_detected_rising 1 self.previous_value = ⟨false, 1⟩ := by
      simp [gpiod_line_event_detected_rising, hp]
    obtain ⟨h1, h2, h3⟩ := loop_iteration_stores_quiet self ⟨false, 1⟩ rfl
    obtain ⟨k1, k2⟩ := ih (loop_iteration self ⟨false, 1⟩).1 (by rw [h3]; decide)
    simp only [List.replicate_succ, run_thread_sampled, hev, List.filter_append, k1, k2, h1, h2]
    exact ⟨rfl, trivial⟩

/-- C3: with the edge detection modelled on samples, poll the button low once
and then high for `n >= 1` consecutive iterations.  The low poll does not
toggle, the first high poll toggles `blink_enabled`, and over the whole run the
flag is stored exactly once and ends flipped: one toggle, not one per poll. -/
theorem held_button_toggles_once (self : thread_args) (n : Nat) (hn : 1 ≤ n) :
    (run_thread_sampled self [0]).2.filter is_store = [] ∧
    (run_thread_sampled self [0, 1]).2.filter is_store =
      [Action.store_blink_enabled (!self.blink_enabled)] ∧
    (run_thread_sampled self (0 :: List.replicate n 1)).2.filter is_store =
      [Action.store_blink_enabled (!self.blink_enabled)] ∧
    ((run_thread_sampled self (0 :: List.replicate n 1)).2.filter is_store).length = 1 ∧
    (run_thread_sampled self (0 :: List.replicate n 1)).1.blink_enabled =
      (!self.blink_enabled) := by
  have hlow : gpiod_line_event_detected_rising 0 self.previous_value = ⟨false, 0⟩ := by
    simp [gpiod_line_event_detected_rising]
  obtain ⟨a1, a2, a3⟩ := loop_iteration_stores_quiet self ⟨false, 0⟩ rfl
  have hhigh : gpiod_line_event_detected_rising 1
      (loop_iteration self ⟨false, 0⟩).1.previous_value = ⟨true, 1⟩ := by
    simp [gpiod_line_event_detected_rising, a3]
  obtain ⟨b1, b2, b3⟩ :=
    loop_iteration_stores_detected (loop_iteration self ⟨false, 0⟩).1 ⟨true, 1⟩ rfl
  rw [a2] at b1 b2
  have main_run : ∀ k : Nat,
      (run_thread_sampled self (0 :: List.replicate (k + 1) 1)).2.filter is_store =
        [Action.store_blink_enabled (!self.blink_enabled)] ∧
      (run_thread_sampled self (0 :: List.replicate (k + 1) 1)).1.blink_enabled =
        (!self.blink_enabled) := by
    intro k
    obtain ⟨c1, c2⟩ := run_thread_sampled_held k
      (loop_iteration (loop_iteration self ⟨false, 0⟩).1 ⟨true, 1⟩).1 (by rw [b3]; decide)
    simp only [List.replicate_succ, run_thread_sampled, hlow, hhigh, List.filter_append, a1,
      b1, c1, c2, b2]
    exact ⟨rfl, trivial⟩
  obtain ⟨k, rfl⟩ : ∃ k, n = k + 1 := ⟨n - 1, by omega⟩
  obtain ⟨m1, m2⟩ := main_run k
  refine ⟨?_, ?_, m1, by rw [m1]; rfl, m2⟩
  · simp [run_thread_sampled, hlow, a1]
  · simpa using (main_run 0).1

/-- Witness for C3: the first context of `main`, button held for three polls. -/
theorem held_button_toggles_once_witness :
    1 ≤ 3 ∧
    (run_thread_sampled args1 [0, 1, 1, 1]).2.filter is_store =
      [Action.store_blink_enabled true] ∧
    (run_thread_sampled args1 [0, 1, 1, 1]).1.blink_enabled = true :=
  have h := held_button_toggles_once args1 3 (by decide)
  ⟨by decide, h.2.2.1, h.2.2.2.2⟩

/-! ## C7: one thread at a time in the print section -/

/-- The actions of every iteration are well bracketed, starting outside the
print section. -/
lemma well_bracketed_loop_iteration (self : thread_args) (ev : edge_result) :
    well_bracketed false (loop_iteration self ev).2 = true := by
  cases hd : ev.detected <;> cases hb : self.blink_enabled
  · simp [loop_iteration, edge_check_quiet self ev hd, drive_leds, hb, well_bracketed]
  · simp [loop_iteration, edge_check_quiet self ev hd, drive_leds, hb, well_bracketed]
  · simp [loop_iteration, edge_check_detected self ev hd, drive_leds, hb, well_bracketed]
  · simp [loop_iteration, edge_check_detected self ev hd, drive_leds, hb, well_bracketed]

/-- A step of one worker keeps its part of the invariant; `other` tells whether
the other thread is inside the section. -/
lemma worker_step_invariant (w : Worker) (other : Bool) (registry : Nat → Bool)
    (ev : edge_result) (hw : well_bracketed w.in_section w.pending = true)
    (hr : registry SEMAPHORE_ID_PRINT = (w.in_section || other))
    (hx : ¬ (w.in_section = true ∧ other = true)) :
    well_bracketed (worker_step w registry ev).1.in_section
        (worker_step w registry ev).1.pending = true ∧
    (worker_step w registry ev).2 SEMAPHORE_ID_PRINT =
      ((worker_step w registry ev).1.in_section || other) ∧
    ¬ ((worker_step w registry ev).1.in_section = true ∧ other = true) := by
  obtain ⟨self, pending, inside⟩ := w
  cases pending with
  | nil =>
    have hin : inside = false := by simpa [well_bracketed] using hw
    subst hin
    simpa [worker_step, well_bracketed_loop_iteration] using hr
  | cons act rest =>
    cases act with
    | semaphore_reserve sem_id =>
      simp only [well_bracketed, Bool.and_eq_true, Bool.not_eq_true', decide_eq_true_eq] at hw
      obtain ⟨⟨hin, hid⟩, hrest⟩ := hw
      subst hin hid
      cases ho : other <;> simp [ho] at hr
      · simp [worker_step, semaphore_reserve, valid_sem_id, SEM_ID_MIN, SEM_ID_MAX,
          SEMAPHORE_ID_PRINT] at hr ⊢
        simp [hr, hrest]
      · simp [worker_step, semaphore_reserve, valid_sem_id, SEM_ID_MIN, SEM_ID_MAX,
          SEMAPHORE_ID_PRINT] at hr ⊢
        simp [hr, hrest, well_bracketed, SEMAPHORE_ID_PRINT]
    | semaphore_release sem_id =>
      simp only [well_bracketed, Bool.and_eq_true, decide_eq_true_eq] at hw
      obtain ⟨⟨hin, hid⟩, hrest⟩ := hw
      subst hin hid
      have ho : other = false := by simpa using hx
      subst ho
      simp [worker_step, semaphore_release, valid_sem_id, SEM_ID_MIN, SEM_ID_MAX,
        SEMAPHORE_ID_PRINT, hrest]
    | gpiod_line_event_detected line edge =>
      exact ⟨by simpa [worker_step, well_bracketed] using hw, by simpa [worker_step] using hr,
        by simpa [worker_step] using hx⟩
    | store_blink_enabled value =>
      exact ⟨by simpa [worker_step, well_bracketed] using hw, by simpa [worker_step] using hr,
        by simpa [worker_step] using hx⟩
    | printf format first second =>
      exact ⟨by simpa [worker_step, well_bracketed] using hw, by simpa [worker_step] using hr,
        by simpa [worker_step] using hx⟩
    | delay_ms ms =>
      exact ⟨by simpa [worker_step, well_bracketed] using hw, by simpa [worker_step] using hr,
        by simpa [worker_step] using hx⟩
    | gpiod_line_set_value line value =>
      exact ⟨by simpa [worker_step, well_bracketed] using hw, by simpa [worker_step] using hr,
        by simpa [worker_step] using hx⟩

/-- Every step of the system keeps the invariant. -/
lemma system_step_invariant (s : Threads) (choice : Bool × edge_result)
    (h : print_invariant s) : print_invariant (system_step s choice) := by
  obtain ⟨hr, hx, h1, h2⟩ := h
  cases hc : choice.1
  · have hr2 : s.registry SEMAPHORE_ID_PRINT =
        (s.second.in_section || s.first.in_section) := by rw [hr, Bool.or_comm]
    obtain ⟨k1, k2, k3⟩ := worker_step_invariant s.second s.first.in_section s.registry
      choice.2 h2 hr2 (fun hb => hx ⟨hb.2, hb.1⟩)
    refine ⟨?_, ?_, ?_, ?_⟩
    · simpa [system_step, hc, Bool.or_comm] using k2
    · simpa [system_step, hc, and_comm] using k3
    · simpa [system_step, hc] using h1
    · simpa [system_step, hc] using k1
  · obtain ⟨k1, k2, k3⟩ := worker_step_invariant s.first s.second.in_section s.registry
      choice.2 h1 hr hx
    refine ⟨?_, ?_, ?_, ?_⟩
    · simpa [system_step, hc] using k2
    · simpa [system_step, hc] using k3
    · simpa [system_step, hc] using k1
    · simpa [system_step, hc] using h2

/-- The invariant holds after every schedule. -/
lemma run_system_invariant (schedule : List (Bool × edge_result)) :
    ∀ s : Threads, print_invariant s → print_invariant (run_system s schedule) := by
  induction schedule with
  | nil => intro s h; simpa [run_system] using h
  | cons choice rest ih =>
    intro s h
    simpa [run_system] using ih (system_step s choice) (system_step_invariant s choice h)

/-- The model lets a thread into the section: after the first thread has
polled an edge, flipped and reserved, it is inside, and the second thread,
scheduled six times, polls an edge, flips and then stays blocked at its own
reserve. -/
lemma print_section_reachable :
    (run_system (start_system args1 args2)
      [(true, ⟨true, 1⟩), (true, ⟨true, 1⟩), (true, ⟨true, 1⟩), (true, ⟨true, 1⟩),
       (false, ⟨true, 1⟩), (false, ⟨true, 1⟩), (false, ⟨true, 1⟩), (false, ⟨true, 1⟩),
       (false, ⟨true, 1⟩), (false, ⟨true, 1⟩)]).first.in_section = true ∧
    (run_system (start_system args1 args2)
      [(true, ⟨true, 1⟩), (true, ⟨true, 1⟩), (true, ⟨true, 1⟩), (true, ⟨true, 1⟩),
       (false, ⟨true, 1⟩), (false, ⟨true, 1⟩), (false, ⟨true, 1⟩), (false, ⟨true, 1⟩),
       (false, ⟨true, 1⟩), (false, ⟨true, 1⟩)]).second.pending.head? =
      some (Action.semaphore_reserve SEMAPHORE_ID_PRINT) := by
  decide

/-- C7: with `semaphore_reserve` and `semaphore_release` behaving as a binary
semaphore, whatever the two contexts and however the steps of the two threads
running `run_thread` are interleaved, the threads are never both inside the
status-print section (between a thread's `semaphore_reserve(SEMAPHORE_ID_PRINT)`
and its `semaphore_release(SEMAPHORE_ID_PRINT)`). -/
theorem print_section_mutual_exclusion (c1 c2 : thread_args)
    (schedule : List (Bool × edge_result)) :
    ¬ ((run_system (start_system c1 c2) schedule).first.in_section = true ∧
       (run_system (start_system c1 c2) schedule).second.in_section = true) :=
  (run_system_invariant schedule (start_system c1 c2)
    ⟨by simp [start_system], by simp [start_system], by simp [start_system, well_bracketed],
     by simp [start_system, well_bracketed]⟩).2.1

end Projekt1
